import Mathlib

/-!
Shallow embedding of the wowlingo-ai feedback pipeline
(`app/services/feedback.py`, `app/core/feedback_generator.py`,
`app/core/scheduler.py`, `app/routers/feedback.py`) together with
theorems settling the specification claims about it.

Numeric values that Python stores as floats are modelled as rationals;
`round(x, 1)` is modelled by `round1` (round half to even, as Python does).
Strings are modelled as Lean strings; Python slicing `s[:n]` is `strTake`.
-/

namespace Wowlingo

/-! ### Numeric helpers -/

/-- Python `round` to the nearest integer, ties to even (banker's rounding). -/
def roundHalfEven (q : ℚ) : ℤ :=
  if q - ⌊q⌋ < 1/2 then ⌊q⌋
  else if q - ⌊q⌋ > 1/2 then ⌊q⌋ + 1
  else if ⌊q⌋ % 2 = 0 then ⌊q⌋ else ⌊q⌋ + 1

/-- Python `round(x, 1)`: round to one decimal place. -/
def round1 (q : ℚ) : ℚ := (roundHalfEven (q * 10) : ℚ) / 10

/-- Python string slicing `s[:n]` (by characters). -/
def strTake (s : String) (n : ℕ) : String := ⟨s.data.take n⟩

/-! ### Data model (`app/models/wowlingo_models.py`)

Only the columns the analysed code reads are embedded.  `accuracy_rate`
is the per-quest stored ratio (a DECIMAL column), kept as a rational. -/

structure UserQuest where
  user_id : ℕ
  quest_id : ℕ
  done_yn : Bool
  ended_at : Option ℤ
  time_spent : Option ℕ
  total_quest_item_count : ℕ
  correct_quest_item_count : ℕ
  accuracy_rate : ℚ
deriving Repr, DecidableEq

/-! ### Statistics aggregation

`generate_daily_feedback` (`app/services/feedback.py` lines 49-52) sums the
item counts over the day's `user_quests` and takes the ratio of the sums;
`generate_user_daily_feedback` (`app/core/feedback_generator.py` lines
121-124) instead averages the stored per-quest `accuracy_rate` values. -/

/-- `total_questions = sum(uq.total_quest_item_count for uq in user_quests)`. -/
def totalQuestions (uqs : List UserQuest) : ℕ :=
  (uqs.map (·.total_quest_item_count)).sum

/-- `total_correct = sum(uq.correct_quest_item_count for uq in user_quests)`. -/
def totalCorrect (uqs : List UserQuest) : ℕ :=
  (uqs.map (·.correct_quest_item_count)).sum

/-- `accuracy = round((total_correct / total_questions * 100) if total_questions > 0 else 0, 1)`
(`app/services/feedback.py` line 52). -/
def accuracy (uqs : List UserQuest) : ℚ :=
  round1 (if totalQuestions uqs > 0
    then (totalCorrect uqs : ℚ) / (totalQuestions uqs : ℚ) * 100
    else 0)

/-- `avg_accuracy = sum(float(uq.accuracy_rate) for uq in user_quests) / len(user_quests)
if user_quests else 0` (`app/core/feedback_generator.py` line 124). -/
def avgAccuracy (uqs : List UserQuest) : ℚ :=
  if uqs ≠ [] then (uqs.map (·.accuracy_rate)).sum / (uqs.length : ℚ) else 0

/-! ### Progress classifier (`app/services/feedback.py` lines 82-101) -/

/-- `stage_order = current_quest.order if current_quest else 1`, and `1` when
no unfinished `UserQuestProgress` row exists (`else` branch, line 91). -/
def stage_order_of (currentQuestOrder : Option ℕ) : ℕ :=
  match currentQuestOrder with
  | some o => o
  | none => 1

/-- The `if/elif/else` chain mapping `stage_order` to a growth-stage label
(`app/services/feedback.py` lines 94-101).  The final `else` branch is
commented `# 8 이상` in the source. -/
def growth_stage (stage_order : ℕ) : String :=
  if stage_order = 1 then "씨앗"
  else if 2 ≤ stage_order ∧ stage_order ≤ 4 then "새싹"
  else if 5 ≤ stage_order ∧ stage_order ≤ 7 then "성장한 식물"
  else "열매"

/-! ### Scheduler lifecycle (`app/core/scheduler.py`)

The module-global `scheduler` handle is either `None` (stopped) or a live
`AsyncIOScheduler` (running); we embed it as a two-state machine.  `start`
additionally reports whether it hit the already-running warning branch. -/

inductive SchedulerState where
  | stopped
  | running
deriving Repr, DecidableEq

/-- `start_scheduler` (lines 51-125): if the global handle is non-`None`, log
"Scheduler is already running" and return (no-op); otherwise build and start
a scheduler.  The boolean records whether the warning branch ran. -/
def start_scheduler : SchedulerState → SchedulerState × Bool
  | .running => (.running, true)
  | .stopped => (.running, false)

/-- `stop_scheduler` (lines 128-135): shut down and clear the handle when it
is non-`None`; otherwise do nothing. -/
def stop_scheduler : SchedulerState → SchedulerState
  | .running => .stopped
  | .stopped => .stopped

/-- `get_scheduler_status` (lines 138-159), status field only. -/
def get_scheduler_status : SchedulerState → String
  | .stopped => "stopped"
  | .running => "running"

/-! ### Free-text oracle-response parsing (`app/core/feedback_generator.py`
lines 248-273) -/

/-- Python substring containment `needle in hay`. -/
def containsSub (hay needle : String) : Bool :=
  (List.range (hay.data.length + 1)).any
    (fun i => needle.data.isPrefixOf (hay.data.drop i))

/-- Python `str.strip()`: drop leading and trailing whitespace. -/
def stripChars (cs : List Char) : List Char :=
  ((cs.dropWhile Char.isWhitespace).reverse.dropWhile Char.isWhitespace).reverse

/-- Python `str.strip()` on strings. -/
def pyStrip (s : String) : String := ⟨stripChars s.data⟩

/-- Python `str.split(sep)` for a one-character separator: split on every
occurrence, keeping empty pieces (`split` never drops fields). -/
def splitChar (sep : Char) : List Char → List (List Char)
  | [] => [[]]
  | c :: rest =>
    match splitChar sep rest with
    | [] => [[]]
    | h :: t => if c = sep then [] :: h :: t else (c :: h) :: t

/-- Python `s.split(sep)` on strings. -/
def pySplit (sep : Char) (s : String) : List String :=
  (splitChar sep s.data).map String.mk

/-- Everything after the first `':'`, i.e. `line.split(":", 1)[1]`. -/
def afterFirstColon : List Char → List Char
  | [] => []
  | c :: rest => if c = ':' then rest else afterFirstColon rest

/-- `line.split(":", 1)[1].strip() if ":" in line else current`. -/
def extractField (line current : String) : String :=
  if containsSub line ":" then pyStrip (String.mk (afterFirstColon line.data))
  else current

/-- Python `str.lower()` (character-wise). -/
def pyLower (s : String) : String := ⟨s.data.map Char.toLower⟩

/-- `"제목" in line or "title" in line.lower()`. -/
def matchesTitle (line : String) : Bool :=
  containsSub line "제목" || containsSub (pyLower line) "title"

/-- `"메시지" in line or "message" in line.lower()`. -/
def matchesMessage (line : String) : Bool :=
  containsSub line "메시지" || containsSub (pyLower line) "message"

/-- `"해시태그" in line or "tag" in line.lower()`. -/
def matchesTags (line : String) : Bool :=
  containsSub line "해시태그" || containsSub (pyLower line) "tag"

def default_title : String := "오늘도 열심히 학습하셨네요!"

def default_message : String := "꾸준한 학습이 실력 향상의 지름길입니다. 내일도 화이팅!"

def default_tags : String := "#영어학습,#매일공부,#화이팅"

/-- Parsed feedback content: the dict returned by `parse_ai_response` /
`generate_fallback_feedback`. -/
structure ParsedFeedback where
  title : String
  message : String
  tags : String
deriving Repr, DecidableEq

/-- One iteration of the `for line in lines` loop of `parse_ai_response`
(lines 256-262): each field is reassigned on every matching line, the
`if/elif` chain giving title priority over message over tags. -/
def scan_step (acc : String × String × String) (line : String) :
    String × String × String :=
  if matchesTitle line then (extractField line acc.1, acc.2.1, acc.2.2)
  else if matchesMessage line then (acc.1, extractField line acc.2.1, acc.2.2)
  else if matchesTags line then (acc.1, acc.2.1, extractField line acc.2.2)
  else acc

/-- The whole line loop, starting from the three default strings. -/
def scan_lines (ls : List String) : String × String × String :=
  ls.foldl scan_step (default_title, default_message, default_tags)

/-- `parse_ai_response` (lines 248-273): split the stripped response into
lines (`response.strip().split("\n")`), scan them, then truncate to the DB
column bounds (100/500/500). -/
def parse_ai_response (response : String) : ParsedFeedback :=
  let p := scan_lines (pySplit '\n' (pyStrip response))
  ⟨strTake p.1 100, strTake p.2.1 500, strTake p.2.2 500⟩

/-! ### Deterministic fallback feedback (`app/core/feedback_generator.py`
lines 276-298) -/

/-- Python `f"{q:.1f}"` for the non-negative accuracies that occur here. -/
def pyFormat1 (q : ℚ) : String :=
  let n := roundHalfEven (q * 10)
  toString (n / 10) ++ "." ++ toString ((n % 10).natAbs)

/-- The learning-summary dict built by `generate_user_daily_feedback`
(lines 139-146); only the fields the fallback and bands read. -/
structure LearningSummary where
  total_questions : ℕ
  correct_answers : ℕ
  accuracy_rate : ℚ
  time_spent_minutes : ℕ
  quests_completed : ℕ
deriving Repr, DecidableEq

/-- `generate_fallback_feedback` (lines 276-298): fixed accuracy bands
`>= 80`, `>= 60`, else. -/
def generate_fallback_feedback (s : LearningSummary) : ParsedFeedback :=
  if s.accuracy_rate ≥ 80 then
    { title := "훌륭한 성과입니다!"
      message := "정답률 " ++ pyFormat1 s.accuracy_rate ++
        "%! 매우 우수한 학습 결과입니다. 이 페이스를 유지해주세요!"
      tags := "#우수학습자,#높은정답률,#꾸준한성장" }
  else if s.accuracy_rate ≥ 60 then
    { title := "좋은 진전이 있네요!"
      message := toString s.total_questions ++ "문제 중 " ++
        toString s.correct_answers ++
        "문제 성공! 조금만 더 노력하면 더 좋은 결과가 있을 거예요."
      tags := "#성장중,#꾸준히학습,#노력의결실" }
  else
    { title := "오늘도 한 걸음 전진!"
      message := "학습을 완료한 것만으로도 대단해요! 틀린 문제를 복습하면 더 빠른 성장이 가능할 거예요."
      tags := "#도전정신,#복습필요,#화이팅" }

/-- `generate_ai_feedback_content` (lines 199-233).  The oracle reply is
`some text` on success and `none` on unavailability: a timeout or transport
error (the client returns `None`), a falsy response, or any exception raised
while calling the client — every such path selects the fallback.  (In the
deployed code `ollama_client` defines no `generate_feedback` method, so the
call raises and the `except` branch always selects the fallback.) -/
def generate_ai_feedback_content (oracleResponse : Option String)
    (s : LearningSummary) : ParsedFeedback :=
  match oracleResponse with
  | some r => parse_ai_response r
  | none => generate_fallback_feedback s

/-! ### Feedback persistence

`save_feedback_to_db` (`app/services/feedback.py` lines 199-255) and the
anchor step of `generate_user_daily_feedback` (`app/core/feedback_generator.py`
lines 151-184): look up the day's `UserQuestAttempt` anchor, create it only
when absent, then append an `AIFeedback` row linked to it. -/

structure UserQuestAttemptRow where
  user_quest_attempt_id : ℕ
  user_id : ℕ
  attempt_day : ℕ
  ai_feedback_id : Option ℕ
deriving Repr, DecidableEq

structure AIFeedbackRow where
  ai_feedback_id : ℕ
  user_quest_attempt_id : ℕ
  title : String
  message : String
  tags : Option String
deriving Repr, DecidableEq

structure DB where
  attempts : List UserQuestAttemptRow
  feedbacks : List AIFeedbackRow
  next_attempt_id : ℕ
  next_feedback_id : ℕ
deriving Repr, DecidableEq

def DB.empty : DB := ⟨[], [], 0, 0⟩

/-- The filter both lookups use: same user, attempt date on the target day
(`attempt_date` range filter in the services path, `func.date(...) ==` in the
core path). -/
def attemptMatches (u d : ℕ) (a : UserQuestAttemptRow) : Bool :=
  a.user_id == u && a.attempt_day == d

/-- `.first()` lookup followed by lazy creation (`app/services/feedback.py`
lines 217-231, `app/core/feedback_generator.py` lines 156-170): reuse the
first matching anchor, otherwise add a fresh one (`db.flush()` assigns its
id). -/
def find_or_create_attempt (u d : ℕ) (db : DB) : UserQuestAttemptRow × DB :=
  match db.attempts.find? (attemptMatches u d) with
  | some a => (a, db)
  | none =>
    let a : UserQuestAttemptRow :=
      { user_quest_attempt_id := db.next_attempt_id, user_id := u
        attempt_day := d, ai_feedback_id := none }
    (a, { db with attempts := db.attempts ++ [a]
                  next_attempt_id := db.next_attempt_id + 1 })

/-- The services feedback dict: `summary` / `praise` / `motivation`. -/
structure ServiceFeedback where
  summary : String
  praise : String
  motivation : String
deriving Repr, DecidableEq

/-- `feedback_title = feedback.get('summary', '')` (line 234). -/
def feedback_title (fb : ServiceFeedback) : String := fb.summary

/-- `feedback_message = "\n".join([feedback.get('praise', ''),
feedback.get('motivation', '')])` (lines 235-238). -/
def feedback_message (fb : ServiceFeedback) : String :=
  fb.praise ++ "\n" ++ fb.motivation

/-- `save_feedback_to_db` (lines 199-255): find or create the day anchor,
then insert the `AIFeedback` row built from the feedback dict as-is (no
truncation is applied on this path) and return its id. -/
def save_feedback_to_db (u d : ℕ) (fb : ServiceFeedback) (db : DB) : ℕ × DB :=
  let r := find_or_create_attempt u d db
  let row : AIFeedbackRow :=
    { ai_feedback_id := r.2.next_feedback_id
      user_quest_attempt_id := r.1.user_quest_attempt_id
      title := feedback_title fb
      message := feedback_message fb
      tags := none }
  (row.ai_feedback_id,
    { r.2 with feedbacks := r.2.feedbacks ++ [row]
               next_feedback_id := r.2.next_feedback_id + 1 })

/-- Number of day-anchor rows for `(u, d)`. -/
def anchorCount (db : DB) (u d : ℕ) : ℕ :=
  (db.attempts.filter (attemptMatches u d)).length

/-! ### Feedback read-back (`app/routers/feedback.py` lines 236-246 and
296-306): split the stored `message` on `"\n"` into
(summary, praise, motivation), each part defaulting to `""`. -/

/-- Outcome of the services-path oracle call: `_make_request` returned
`None` (timeout, transport error, non-2xx) or the reply carried no
"response" key (`unavailable`); the body raised `json.JSONDecodeError`
(`malformed`); or the body parsed as the feedback dict (`parsed`). -/
inductive OracleOutcome where
  | unavailable
  | malformed (body : String)
  | parsed (fb : ServiceFeedback)
deriving Repr, DecidableEq

/-- `generate_daily_feedback` (`app/services/feedback.py` lines 15-149)
reduced to its control flow: `return None` when the day has no quest data
(lines 45-47), otherwise the oracle tail (lines 132-149), where both the
unavailable branch (`return None` at line 149) and the
`json.JSONDecodeError` handler (`return None` at line 147) end without any
fallback, and a parsed body is returned as the feedback dict. -/
def generate_daily_feedback_res (uqs : List UserQuest) (o : OracleOutcome) :
    Option ServiceFeedback :=
  if uqs = [] then none
  else match o with
    | .unavailable => none
    | .malformed _ => none
    | .parsed fb => some fb

/-- The `/generate` route result (`app/routers/feedback.py` lines 88-94):
a `None` feedback raises HTTP 404 NotFound. -/
inductive ApiResult where
  | ok (fb : ServiceFeedback)
  | notFound
deriving Repr, DecidableEq

def generate_feedback_route (uqs : List UserQuest) (o : OracleOutcome) :
    ApiResult :=
  match generate_daily_feedback_res uqs o with
  | none => .notFound
  | some fb => .ok fb

/-! ### Batch run report (`app/core/feedback_generator.py` lines 15-99)

`asyncio.gather(..., return_exceptions=True)` turns each per-user task into
an outcome: a raised exception, a `None` result (no learning data), or a
success dict carrying the feedback id.  The result loop (lines 63-78) then
counts and records them. -/

inductive UserResult where
  | success (feedback_id : ℕ)
  | noData
  | failure (msg : String)
deriving Repr, DecidableEq

structure BatchEntry where
  user_id : ℕ
  status : String
  feedback_id : Option ℕ
  errmsg : Option String
deriving Repr, DecidableEq

structure BatchReport where
  job_type : String
  total_users : ℕ
  processed_count : ℕ
  error_count : ℕ
  results : List BatchEntry
deriving Repr, DecidableEq

/-- The per-outcome bookkeeping of the result loop (lines 63-78):
exception → error entry, truthy dict → success entry, `None` → skipped. -/
def process_results : List (ℕ × UserResult) → ℕ × ℕ × List BatchEntry
  | [] => (0, 0, [])
  | (u, r) :: rest =>
    let acc := process_results rest
    match r with
    | .failure msg =>
      (acc.1, acc.2.1 + 1,
        { user_id := u, status := "error", feedback_id := none
          errmsg := some msg } :: acc.2.2)
    | .success fid =>
      (acc.1 + 1, acc.2.1,
        { user_id := u, status := "success", feedback_id := some fid
          errmsg := none } :: acc.2.2)
    | .noData => acc

/-- `generate_daily_feedbacks` (lines 15-99), given the per-user outcomes of
its gathered tasks: assemble the run report. -/
def generate_daily_feedbacks (outcomes : List (ℕ × UserResult)) : BatchReport :=
  let acc := process_results outcomes
  { job_type := "daily_feedback", total_users := outcomes.length
    processed_count := acc.1, error_count := acc.2.1, results := acc.2.2 }

/-! ### Best-category computation (`app/services/feedback.py` lines 152-196) -/

/-- A day's `user_quest` with the hashtag names reachable from its quest. -/
structure QuestWithTags where
  total_quest_item_count : ℕ
  correct_quest_item_count : ℕ
  hashtags : List String
deriving Repr, DecidableEq

/-- One inner-loop step of `find_best_category` (lines 173-183): initialise
the category's `(total, correct)` slot on first encounter (insertion order
preserved, as in a Python dict), then add this quest's counts. -/
def bump_category (stats : List (String × ℕ × ℕ)) (name : String)
    (t c : ℕ) : List (String × ℕ × ℕ) :=
  if stats.any (fun s => s.1 == name) then
    stats.map (fun s => if s.1 == name then (s.1, s.2.1 + t, s.2.2 + c) else s)
  else stats ++ [(name, t, c)]

/-- The accumulation loops of `find_best_category` (lines 163-183). -/
def category_stats (uqs : List QuestWithTags) : List (String × ℕ × ℕ) :=
  uqs.foldl (fun stats uq =>
    uq.hashtags.foldl (fun st name =>
      bump_category st name uq.total_quest_item_count
        uq.correct_quest_item_count) stats) []

/-- One iteration of the selection loop (lines 189-194): take a category
only when `total > 0` and its ratio strictly exceeds the running best. -/
def select_step (best : Option String × ℚ) (s : String × ℕ × ℕ) :
    Option String × ℚ :=
  if s.2.1 > 0 then
    if (s.2.2 : ℚ) / (s.2.1 : ℚ) * 100 > best.2
    then (some s.1, (s.2.2 : ℚ) / (s.2.1 : ℚ) * 100) else best
  else best

/-- The selection loop (lines 186-194), starting from `(None, 0.0)`. -/
def select_best (stats : List (String × ℕ × ℕ)) : Option String × ℚ :=
  stats.foldl select_step (none, 0)

/-- `find_best_category` (lines 152-196): accumulate, select, round the
returned accuracy to one decimal. -/
def find_best_category (uqs : List QuestWithTags) : Option String × ℚ :=
  let r := select_best (category_stats uqs)
  (r.1, round1 r.2)

/-- The per-category percentage `(stats['correct'] / stats['total']) * 100`. -/
def cat_ratio (s : String × ℕ × ℕ) : ℚ := (s.2.2 : ℚ) / (s.2.1 : ℚ) * 100

/-- Outcome classifiers used to count batch successes and errors. -/
def isSuccess : ℕ × UserResult → Bool
  | (_, .success _) => true
  | _ => false

def isFailure : ℕ × UserResult → Bool
  | (_, .failure _) => true
  | _ => false

/-! ### Concrete fixtures used by witnesses and counterexamples -/

/-- The spec scenario: 15 items attempted, 12 correct, on one day. -/
def uq_example : UserQuest := ⟨1, 1, true, some 0, some 0, 15, 12, 80⟩

/-- Two quests of unequal size: 10/10 on the first, 0/1 on the second
(per-quest accuracy rates 100 and 0, consistent with the counts). -/
def uq_allCorrect : UserQuest := ⟨1, 1, true, some 0, some 0, 10, 10, 100⟩

def uq_oneWrong : UserQuest := ⟨1, 2, true, some 0, some 0, 1, 0, 0⟩

def summary85 : LearningSummary := ⟨10, 9, 85, 3, 2⟩

def summary45 : LearningSummary := ⟨10, 4, 45, 3, 2⟩

def fb_roundtrip : ServiceFeedback := ⟨"요약", "칭찬", "동기"⟩

def qw_vowels : QuestWithTags := ⟨10, 9, ["vowels"]⟩

def qw_consonants : QuestWithTags := ⟨5, 2, ["consonants"]⟩

def qw_zero_ratio : QuestWithTags := ⟨5, 0, ["x"]⟩

def batch_outcomes_example : List (ℕ × UserResult) :=
  [(1, .success 101), (2, .failure "db write failed"), (3, .success 103)]

/-! ## Supporting lemmas -/

theorem roundHalfEven_of_between {q : ℚ} {n : ℤ} (h1 : (n : ℚ) ≤ q)
    (h2 : q < (n : ℚ) + 1/2) : roundHalfEven q = n := by
  have hf : ⌊q⌋ = n := Int.floor_eq_iff.mpr ⟨h1, by linarith⟩
  unfold roundHalfEven
  rw [hf, if_pos (by linarith)]

theorem round1_eq {q : ℚ} {n : ℤ} (h1 : (n : ℚ) ≤ q * 10)
    (h2 : q * 10 < (n : ℚ) + 1/2) : round1 q = (n : ℚ) / 10 := by
  unfold round1
  rw [roundHalfEven_of_between h1 h2]

theorem roundHalfEven_nonneg {q : ℚ} (hq : 0 ≤ q) : 0 ≤ roundHalfEven q := by
  have h0 : (0 : ℤ) ≤ ⌊q⌋ := Int.floor_nonneg.mpr hq
  unfold roundHalfEven
  split_ifs <;> omega

theorem roundHalfEven_le {q : ℚ} {n : ℤ} (h : q ≤ (n : ℚ)) :
    roundHalfEven q ≤ n := by
  have hf : ⌊q⌋ ≤ n := by
    have h2 := Int.floor_le_floor h
    simpa [Int.floor_intCast] using h2
  unfold roundHalfEven
  split_ifs with h1 h2 h3
  · exact hf
  · by_contra hcon
    have he : ⌊q⌋ = n := by omega
    rw [he] at h2
    linarith
  · exact hf
  · by_contra hcon
    have he : ⌊q⌋ = n := by omega
    rw [he] at h1
    push_neg at h1
    linarith

theorem round1_nonneg {q : ℚ} (hq : 0 ≤ q) : 0 ≤ round1 q := by
  unfold round1
  have h := roundHalfEven_nonneg (q := q * 10) (by positivity)
  have hc : (0 : ℚ) ≤ (roundHalfEven (q * 10) : ℚ) := by exact_mod_cast h
  linarith

theorem round1_le {q : ℚ} {n : ℤ} (h : q * 10 ≤ (n : ℚ)) :
    round1 q ≤ (n : ℚ) / 10 := by
  unfold round1
  have hle := roundHalfEven_le h
  have hc : ((roundHalfEven (q * 10) : ℤ) : ℚ) ≤ (n : ℚ) := by exact_mod_cast hle
  linarith

/-- C1 (amended): in `generate_daily_feedback` (`app/services/feedback.py`)
the accuracy statistic is the percentage of total items-correct over total
items-attempted summed over the window's attempts, rounded to one decimal,
defined as 0 when the attempted total is 0 and always within [0, 100], never
raising.  (The core-path `generate_user_daily_feedback` instead averages the
stored per-quest accuracy rates, which the counterexample separates from the
ratio of sums.) -/
theorem C1_services_accuracy (uqs : List UserQuest)
    (h : ∀ uq ∈ uqs, uq.correct_quest_item_count ≤ uq.total_quest_item_count) :
    (totalQuestions uqs = 0 → accuracy uqs = 0) ∧
    0 ≤ accuracy uqs ∧ accuracy uqs ≤ 100 ∧
    (0 < totalQuestions uqs →
      accuracy uqs
        = round1 ((totalCorrect uqs : ℚ) / (totalQuestions uqs : ℚ) * 100)) := by
  have hle : totalCorrect uqs ≤ totalQuestions uqs :=
    List.sum_le_sum h
  have hr0 : round1 0 = 0 := by
    rw [round1_eq (n := 0) (by norm_num) (by norm_num)]
    norm_num
  have hv0 : 0 ≤ (if totalQuestions uqs > 0
      then (totalCorrect uqs : ℚ) / (totalQuestions uqs : ℚ) * 100 else 0) := by
    split_ifs with hpos
    · positivity
    · norm_num
  have hv100 : (if totalQuestions uqs > 0
      then (totalCorrect uqs : ℚ) / (totalQuestions uqs : ℚ) * 100 else 0) ≤ 100 := by
    split_ifs with hpos
    · have ht : (0 : ℚ) < (totalQuestions uqs : ℚ) := by exact_mod_cast hpos
      have hdiv : (totalCorrect uqs : ℚ) / (totalQuestions uqs : ℚ) ≤ 1 := by
        rw [div_le_one ht]
        exact_mod_cast hle
      linarith
    · norm_num
  refine ⟨?_, ?_, ?_, ?_⟩
  · intro h0
    unfold accuracy
    rw [if_neg (by omega)]
    exact hr0
  · exact round1_nonneg hv0
  · have h100 := round1_le (n := 1000)
      (q := if totalQuestions uqs > 0
        then (totalCorrect uqs : ℚ) / (totalQuestions uqs : ℚ) * 100 else 0)
      (by push_cast; linarith)
    unfold accuracy
    calc round1 _ ≤ ((1000 : ℤ) : ℚ) / 10 := h100
    _ = 100 := by norm_num
  · intro hpos
    unfold accuracy
    rw [if_pos hpos]

/-- C1 witness: the spec scenario, 15 items attempted and 12 correct, gives
accuracy 80.0, and the general bounds apply to it. -/
theorem C1_services_accuracy_witness :
    accuracy [uq_example] = 80 ∧
    0 ≤ accuracy [uq_example] ∧ accuracy [uq_example] ≤ 100 := by
  refine ⟨?_, (C1_services_accuracy [uq_example] (by decide)).2.1,
    (C1_services_accuracy [uq_example] (by decide)).2.2.1⟩
  have h80 : round1 ((12 : ℚ) / 15 * 100) = 80 := by
    rw [round1_eq (n := 800) (by norm_num) (by norm_num)]
    norm_num
  have hq : totalQuestions [uq_example] = 15 := by decide
  have hc : totalCorrect [uq_example] = 12 := by decide
  unfold accuracy
  rw [hq, hc, if_pos (by norm_num)]
  exact_mod_cast h80

/-- C1 counterexample: on the core path the accuracy statistic averages the
per-quest rates — two consistent quests (10 of 10, then 0 of 1) average to
50 while the ratio of sums is 1000/11 ≈ 90.9, so the claim's "total correct
over total attempted" description is false of `avgAccuracy`. -/
theorem C1_avg_vs_ratio_counterexample :
    avgAccuracy [uq_allCorrect, uq_oneWrong] = 50 ∧
    (totalCorrect [uq_allCorrect, uq_oneWrong] : ℚ)
        / (totalQuestions [uq_allCorrect, uq_oneWrong] : ℚ) * 100 ≠ 50 := by
  constructor
  · unfold avgAccuracy
    rw [if_pos (by simp : ¬([uq_allCorrect, uq_oneWrong] : List UserQuest) = [])]
    norm_num [uq_allCorrect, uq_oneWrong]
  · have hq : totalQuestions [uq_allCorrect, uq_oneWrong] = 11 := by decide
    have hc : totalCorrect [uq_allCorrect, uq_oneWrong] = 10 := by decide
    rw [hq, hc]
    norm_num

/-- C3 (amended): growth-stage classification is a total deterministic
function of the stage ordinal: 1 ↦ the lowest label, 2–4 ↦ the second, 5–7 ↦
the third, ≥ 8 ↦ the highest, and a missing progress row defaults to ordinal
1 and hence the lowest label; ordinal 0, however, falls into the final
`else` branch and maps to the highest label (see the counterexample), not
the lowest. -/
theorem C3_growth_stage_total (n : ℕ) :
    (growth_stage n = "씨앗" ∨ growth_stage n = "새싹" ∨
      growth_stage n = "성장한 식물" ∨ growth_stage n = "열매") ∧
    (n = 1 → growth_stage n = "씨앗") ∧
    (2 ≤ n ∧ n ≤ 4 → growth_stage n = "새싹") ∧
    (5 ≤ n ∧ n ≤ 7 → growth_stage n = "성장한 식물") ∧
    (8 ≤ n → growth_stage n = "열매") ∧
    growth_stage (stage_order_of none) = "씨앗" ∧
    growth_stage (stage_order_of (some n)) = growth_stage n := by
  refine ⟨?_, ?_, ?_, ?_, ?_, by decide, rfl⟩
  · unfold growth_stage
    split_ifs <;> simp
  · intro h1
    subst h1
    decide
  · intro hb
    unfold growth_stage
    split_ifs <;> first | rfl | omega
  · intro hb
    unfold growth_stage
    split_ifs <;> first | rfl | omega
  · intro hb
    unfold growth_stage
    split_ifs <;> first | rfl | omega

/-- C3 witness: ordinals 3 and 8 land in their buckets. -/
theorem C3_growth_stage_total_witness :
    growth_stage 3 = "새싹" ∧ growth_stage 8 = "열매" :=
  ⟨(C3_growth_stage_total 3).2.2.1 (by omega),
   (C3_growth_stage_total 8).2.2.2.2.1 (by omega)⟩

/-- C3 counterexample: ordinal 0 is classified as the highest stage "열매"
(the `else # 8 이상` branch), not the lowest stage "씨앗" as claimed. -/
theorem C3_ordinal_zero_counterexample :
    growth_stage 0 = "열매" ∧ growth_stage 0 ≠ "씨앗" := by
  decide

/-- C4 (amended): the two paths diverge on oracle unavailability.  On the
core batch path, `generate_ai_feedback_content` returns the deterministic
fallback record, whose band is fixed by accuracy — ≥ 80 the excellent band,
≥ 60 (and < 80) the middle band, otherwise the needs-review band — so the
batch pipeline never halts for lack of the oracle.  The services-path
`generate_daily_feedback` (the `generateFeedbackForUser` surface), however,
has no fallback: for a user with learning data it returns `None` on an
unavailable oracle or an unparseable reply — a parsed reply alone is
returned — and the API route maps that `None` to NotFound. -/
theorem C4_oracle_fallback_split (s : LearningSummary)
    (uqs : List UserQuest) (h : uqs ≠ []) :
    generate_ai_feedback_content none s = generate_fallback_feedback s ∧
    (80 ≤ s.accuracy_rate →
      (generate_ai_feedback_content none s).title = "훌륭한 성과입니다!" ∧
      (generate_ai_feedback_content none s).tags = "#우수학습자,#높은정답률,#꾸준한성장") ∧
    (60 ≤ s.accuracy_rate ∧ s.accuracy_rate < 80 →
      (generate_ai_feedback_content none s).title = "좋은 진전이 있네요!" ∧
      (generate_ai_feedback_content none s).tags = "#성장중,#꾸준히학습,#노력의결실") ∧
    (s.accuracy_rate < 60 →
      (generate_ai_feedback_content none s).title = "오늘도 한 걸음 전진!" ∧
      (generate_ai_feedback_content none s).tags = "#도전정신,#복습필요,#화이팅") ∧
    generate_daily_feedback_res uqs OracleOutcome.unavailable = none ∧
    (∀ body, generate_daily_feedback_res uqs (OracleOutcome.malformed body)
      = none) ∧
    (∀ fb, generate_daily_feedback_res uqs (OracleOutcome.parsed fb)
      = some fb) ∧
    generate_feedback_route uqs OracleOutcome.unavailable
      = ApiResult.notFound := by
  have hcore : ∀ o : OracleOutcome,
      generate_daily_feedback_res uqs o = match o with
        | .unavailable => none
        | .malformed _ => none
        | .parsed fb => some fb := by
    intro o
    unfold generate_daily_feedback_res
    rw [if_neg h]
  refine ⟨rfl, ?_, ?_, ?_, hcore .unavailable, fun body => hcore (.malformed body),
    fun fb => hcore (.parsed fb), ?_⟩
  · intro h80
    simp only [generate_ai_feedback_content, generate_fallback_feedback]
    rw [if_pos h80]
    exact ⟨rfl, rfl⟩
  · rintro ⟨h60, h80⟩
    simp only [generate_ai_feedback_content, generate_fallback_feedback]
    rw [if_neg (by linarith), if_pos h60]
    exact ⟨rfl, rfl⟩
  · intro hlt
    simp only [generate_ai_feedback_content, generate_fallback_feedback]
    rw [if_neg (by linarith), if_neg (by linarith)]
    exact ⟨rfl, rfl⟩
  · unfold generate_feedback_route
    rw [hcore .unavailable]

/-- C4 witness: with the oracle down, accuracy 85 selects the excellent
band and accuracy 45 the needs-review band on the core path, while the
services route answers NotFound for the 15/12 user. -/
theorem C4_oracle_fallback_split_witness :
    (generate_ai_feedback_content none summary85).title = "훌륭한 성과입니다!" ∧
    (generate_ai_feedback_content none summary45).title = "오늘도 한 걸음 전진!" ∧
    generate_feedback_route [uq_example] OracleOutcome.unavailable
      = ApiResult.notFound :=
  ⟨((C4_oracle_fallback_split summary85 [uq_example] (by simp)).2.1
      (by norm_num [summary85])).1,
   ((C4_oracle_fallback_split summary45 [uq_example] (by simp)).2.2.2.1
      (by norm_num [summary45])).1,
   (C4_oracle_fallback_split summary85 [uq_example] (by simp)).2.2.2.2.2.2.2⟩

/-- C4 counterexample: a user with learning data (the 15-attempted /
12-correct day) whose oracle call fails gets `None` from
`generate_daily_feedback` and hence NotFound from the API — not a fallback
feedback record; an unparseable reply behaves the same. -/
theorem C4_services_no_fallback_counterexample :
    generate_daily_feedback_res [uq_example] OracleOutcome.unavailable
      = none ∧
    generate_feedback_route [uq_example] OracleOutcome.unavailable
      = ApiResult.notFound ∧
    generate_feedback_route [uq_example] (OracleOutcome.malformed "not json")
      = ApiResult.notFound := by
  refine ⟨?_, ?_, ?_⟩ <;> rfl

/-- C9: the scheduler lifecycle is an idempotent two-state machine: a second
start while running is a warned no-op, a second stop is a no-op, start from
stopped yields running and stop from running yields stopped. -/
theorem C9_scheduler_lifecycle (s : SchedulerState) :
    start_scheduler (start_scheduler s).1 = ((start_scheduler s).1, true) ∧
    (start_scheduler (start_scheduler s).1).1 = (start_scheduler s).1 ∧
    stop_scheduler (stop_scheduler s) = stop_scheduler s ∧
    stop_scheduler (stop_scheduler s) = .stopped ∧
    start_scheduler .stopped = (.running, false) ∧
    stop_scheduler .running = .stopped ∧
    get_scheduler_status (start_scheduler s).1 = "running" ∧
    get_scheduler_status (stop_scheduler s) = "stopped" := by
  cases s <;> exact ⟨rfl, rfl, rfl, rfl, rfl, rfl, rfl, rfl⟩

/-! ### Anchor-row lemmas for C5 -/

theorem attemptMatches_self (u d i : ℕ) (o : Option ℕ) :
    attemptMatches u d ⟨i, u, d, o⟩ = true := by
  simp [attemptMatches]

theorem foc_of_found {u d : ℕ} {db : DB} {a : UserQuestAttemptRow}
    (h : db.attempts.find? (attemptMatches u d) = some a) :
    (find_or_create_attempt u d db).2 = db := by
  unfold find_or_create_attempt
  rw [h]

theorem foc_attempts_of_none {u d : ℕ} {db : DB}
    (h : db.attempts.find? (attemptMatches u d) = none) :
    (find_or_create_attempt u d db).2.attempts
      = db.attempts ++ [⟨db.next_attempt_id, u, d, none⟩] := by
  unfold find_or_create_attempt
  rw [h]

theorem anchorCount_congr {x y : DB} (u d : ℕ) (h : x.attempts = y.attempts) :
    anchorCount x u d = anchorCount y u d := by
  unfold anchorCount
  rw [h]

theorem anchorCount_foc (u d : ℕ) (db : DB) :
    anchorCount (find_or_create_attempt u d db).2 u d
      = max (anchorCount db u d) 1 := by
  cases h : db.attempts.find? (attemptMatches u d) with
  | none =>
    have hnil : db.attempts.filter (attemptMatches u d) = [] := by
      rw [List.filter_eq_nil_iff]
      intro a ha
      simpa using List.find?_eq_none.mp h a ha
    unfold anchorCount
    rw [foc_attempts_of_none h, List.filter_append, hnil]
    simp [List.filter, attemptMatches_self]
  | some a =>
    have ha : a ∈ db.attempts := List.mem_of_find?_eq_some h
    have hp : attemptMatches u d a = true := List.find?_some h
    have hpos : 0 < anchorCount db u d := by
      unfold anchorCount
      rw [List.length_pos]
      intro hnil
      have hmem : a ∈ db.attempts.filter (attemptMatches u d) :=
        List.mem_filter.mpr ⟨ha, hp⟩
      rw [hnil] at hmem
      exact absurd hmem (List.not_mem_nil a)
    rw [foc_of_found h]
    omega

theorem exists_anchor_foc (u d : ℕ) (db : DB) :
    ∃ a ∈ (find_or_create_attempt u d db).2.attempts,
      attemptMatches u d a = true := by
  cases h : db.attempts.find? (attemptMatches u d) with
  | none =>
    refine ⟨⟨db.next_attempt_id, u, d, none⟩, ?_, attemptMatches_self u d _ _⟩
    rw [foc_attempts_of_none h]
    simp
  | some a =>
    rw [foc_of_found h]
    exact ⟨a, List.mem_of_find?_eq_some h, List.find?_some h⟩

theorem foc_noop_of_exists {u d : ℕ} {db : DB}
    (h : ∃ a ∈ db.attempts, attemptMatches u d a = true) :
    (find_or_create_attempt u d db).2 = db := by
  cases hf : db.attempts.find? (attemptMatches u d) with
  | none =>
    obtain ⟨a, ha, hp⟩ := h
    have := List.find?_eq_none.mp hf a ha
    simp [hp] at this
  | some a => exact foc_of_found hf

/-- C5: each feedback-generation save lazily creates at most one day-anchor
row: after one save there is exactly `max(previous, 1)` matching anchor for
`(user, day)`, a second save for the same `(user, day)` adds no anchor row
(it reuses the one found by the lookup that runs before creation), and the
at-most-one-anchor invariant is preserved. -/
theorem C5_anchor_uniqueness (u d : ℕ) (fb1 fb2 : ServiceFeedback) (db : DB) :
    anchorCount (save_feedback_to_db u d fb1 db).2 u d
      = max (anchorCount db u d) 1 ∧
    (save_feedback_to_db u d fb2 (save_feedback_to_db u d fb1 db).2).2.attempts
      = (save_feedback_to_db u d fb1 db).2.attempts ∧
    (anchorCount db u d ≤ 1 →
      anchorCount
        (save_feedback_to_db u d fb2 (save_feedback_to_db u d fb1 db).2).2 u d
        ≤ 1) := by
  have hsave1 : (save_feedback_to_db u d fb1 db).2.attempts
      = (find_or_create_attempt u d db).2.attempts := rfl
  have h1 : anchorCount (save_feedback_to_db u d fb1 db).2 u d
      = max (anchorCount db u d) 1 := by
    rw [anchorCount_congr u d hsave1]
    exact anchorCount_foc u d db
  have hex : ∃ a ∈ (save_feedback_to_db u d fb1 db).2.attempts,
      attemptMatches u d a = true := by
    rw [hsave1]
    exact exists_anchor_foc u d db
  have h2 : (save_feedback_to_db u d fb2
        (save_feedback_to_db u d fb1 db).2).2.attempts
      = (save_feedback_to_db u d fb1 db).2.attempts := by
    have hfoc := foc_noop_of_exists hex
    calc (save_feedback_to_db u d fb2 (save_feedback_to_db u d fb1 db).2).2.attempts
        = (find_or_create_attempt u d
            (save_feedback_to_db u d fb1 db).2).2.attempts := rfl
    _ = (save_feedback_to_db u d fb1 db).2.attempts := by rw [hfoc]
  refine ⟨h1, h2, ?_⟩
  intro hle
  rw [anchorCount_congr u d h2, h1]
  omega

/-- C5 witness: two saves for user 1 on the same day starting from an empty
store leave a single anchor row. -/
theorem C5_anchor_uniqueness_witness :
    anchorCount (save_feedback_to_db 1 20250115 fb_roundtrip
      (save_feedback_to_db 1 20250115 fb_roundtrip DB.empty).2).2 1 20250115
      ≤ 1 :=
  (C5_anchor_uniqueness 1 20250115 fb_roundtrip fb_roundtrip DB.empty).2.2
    (by decide)

/-! ### Batch-report lemmas for C6 -/

theorem process_results_counts (l : List (ℕ × UserResult)) :
    (process_results l).1 = l.countP isSuccess ∧
    (process_results l).2.1 = l.countP isFailure := by
  induction l with
  | nil => exact ⟨rfl, rfl⟩
  | cons hd tl ih =>
    obtain ⟨u, r⟩ := hd
    cases r <;>
      simp [process_results, List.countP_cons, isSuccess, isFailure, ih.1, ih.2]

theorem process_results_error_mem {l : List (ℕ × UserResult)} {u : ℕ}
    {msg : String} (h : (u, UserResult.failure msg) ∈ l) :
    ({ user_id := u, status := "error", feedback_id := none
       errmsg := some msg } : BatchEntry) ∈ (process_results l).2.2 := by
  induction l with
  | nil => cases h
  | cons hd tl ih =>
    obtain ⟨v, r⟩ := hd
    rcases List.mem_cons.mp h with heq | hmem
    · obtain ⟨hu, hr⟩ := Prod.mk.injEq .. ▸ heq
      subst hu
      rw [← hr]
      simp [process_results]
    · have hmem2 := ih hmem
      cases r with
      | success fid => simpa [process_results] using hmem2
      | noData => simpa [process_results] using hmem2
      | failure m => simpa [process_results] using Or.inr hmem2

/-- C6: a per-user failure in a batch run is caught and recorded, never
aborting the siblings: the report's processed and error counts are exactly
the numbers of success and failure outcomes, every failure outcome yields an
error entry naming its user, and the three-user scenario with user 2 failing
reports processed_count = 2, error_count = 1, with an error entry for
user 2. -/
theorem C6_batch_isolation (outcomes : List (ℕ × UserResult)) :
    (generate_daily_feedbacks outcomes).processed_count
      = outcomes.countP isSuccess ∧
    (generate_daily_feedbacks outcomes).error_count
      = outcomes.countP isFailure ∧
    (∀ u msg, (u, UserResult.failure msg) ∈ outcomes →
      ({ user_id := u, status := "error", feedback_id := none
         errmsg := some msg } : BatchEntry)
        ∈ (generate_daily_feedbacks outcomes).results) ∧
    generate_daily_feedbacks batch_outcomes_example
      = { job_type := "daily_feedback", total_users := 3, processed_count := 2
          error_count := 1
          results := [⟨1, "success", some 101, none⟩,
                      ⟨2, "error", none, some "db write failed"⟩,
                      ⟨3, "success", some 103, none⟩] } := by
  refine ⟨(process_results_counts outcomes).1,
    (process_results_counts outcomes).2, ?_, by decide⟩
  intro u msg h
  exact process_results_error_mem h

/-- C6 witness: the three-user scenario's report contains the error entry
naming user 2. -/
theorem C6_batch_isolation_witness :
    ({ user_id := 2, status := "error", feedback_id := none
       errmsg := some "db write failed" } : BatchEntry)
      ∈ (generate_daily_feedbacks batch_outcomes_example).results :=
  (C6_batch_isolation batch_outcomes_example).2.2.1 2 "db write failed"
    (by decide)

/-! ### Selection-loop lemmas for C7 -/

theorem select_step_mono (init : Option String × ℚ) (s : String × ℕ × ℕ) :
    init.2 ≤ (select_step init s).2 := by
  unfold select_step
  split_ifs with h1 h2
  · exact le_of_lt h2
  · exact le_refl _
  · exact le_refl _

theorem select_step_covers (init : Option String × ℚ) (s : String × ℕ × ℕ)
    (hpos : 0 < s.2.1) : cat_ratio s ≤ (select_step init s).2 := by
  unfold select_step
  rw [if_pos hpos]
  split_ifs with h2
  · exact le_refl _
  · push_neg at h2
    exact h2

theorem select_step_shape (init : Option String × ℚ) (s : String × ℕ × ℕ) :
    select_step init s = init ∨
      (0 < s.2.1 ∧ select_step init s = (some s.1, cat_ratio s) ∧
        init.2 < (select_step init s).2) := by
  unfold select_step
  split_ifs with h1 h2
  · exact Or.inr ⟨h1, rfl, h2⟩
  · exact Or.inl rfl
  · exact Or.inl rfl

theorem select_fold_spec (stats : List (String × ℕ × ℕ)) :
    ∀ init : Option String × ℚ,
      init.2 ≤ (stats.foldl select_step init).2 ∧
      (∀ s ∈ stats, 0 < s.2.1 →
        cat_ratio s ≤ (stats.foldl select_step init).2) ∧
      (stats.foldl select_step init = init ∨
        ∃ s ∈ stats, 0 < s.2.1 ∧
          stats.foldl select_step init = (some s.1, cat_ratio s) ∧
          init.2 < (stats.foldl select_step init).2) := by
  induction stats with
  | nil =>
    intro init
    exact ⟨le_refl _, by simp, Or.inl rfl⟩
  | cons s tl ih =>
    intro init
    obtain ⟨ih1, ih2, ih3⟩ := ih (select_step init s)
    have hfold : (s :: tl).foldl select_step init
        = tl.foldl select_step (select_step init s) := rfl
    have hmono := select_step_mono init s
    refine ⟨?_, ?_, ?_⟩
    · rw [hfold]
      exact le_trans hmono ih1
    · intro x hx hxpos
      rcases List.mem_cons.mp hx with hxs | hxtl
      · subst hxs
        rw [hfold]
        exact le_trans (select_step_covers init x hxpos) ih1
      · rw [hfold]
        exact ih2 x hxtl hxpos
    · rw [hfold]
      rcases ih3 with heq | ⟨x, hxtl, hxpos, heq, hlt⟩
      · rw [heq]
        rcases select_step_shape init s with hs | ⟨hpos, hs, hlt⟩
        · exact Or.inl hs
        · exact Or.inr ⟨s, List.mem_cons_self s tl, hpos, hs, hlt⟩
      · exact Or.inr ⟨x, List.mem_cons_of_mem s hxtl, hxpos, heq,
          lt_of_le_of_lt hmono hlt⟩

/-- C7 (amended): the selection accumulates `(total, correct)` per category
in first-encounter order and takes the category with the strictly highest
ratio among those with `total > 0` — every selected category achieves the
maximum ratio, ties keep the earlier candidate, and the vowels/consonants
scenario selects "vowels" with 90.0; but because the running best starts at
0.0 and the comparison is strict, a category whose ratio is exactly 0 is
never selected, so when every in-window category has ratio 0 the no-category
sentinel `(None, 0)` is returned even though categories with `total > 0`
exist (see the counterexample). -/
theorem C7_best_category (uqs : List QuestWithTags) :
    (∀ s ∈ category_stats uqs, 0 < s.2.1 →
      cat_ratio s ≤ (select_best (category_stats uqs)).2) ∧
    ((select_best (category_stats uqs)).1 = none →
      select_best (category_stats uqs) = (none, 0) ∧
      find_best_category uqs = (none, 0)) ∧
    (∀ c, (select_best (category_stats uqs)).1 = some c →
      ∃ s ∈ category_stats uqs, s.1 = c ∧ 0 < s.2.1 ∧
        cat_ratio s = (select_best (category_stats uqs)).2 ∧
        0 < (select_best (category_stats uqs)).2) ∧
    find_best_category uqs
      = ((select_best (category_stats uqs)).1,
         round1 (select_best (category_stats uqs)).2) ∧
    find_best_category [qw_vowels, qw_consonants] = (some "vowels", 90) ∧
    select_best [("a", 10, 5), ("b", 10, 5)] = (some "a", 50) := by
  obtain ⟨g1, g2, g3⟩ := select_fold_spec (category_stats uqs) (none, 0)
  have hsel : select_best (category_stats uqs)
      = (category_stats uqs).foldl select_step (none, 0) := rfl
  have hr0 : round1 0 = 0 := by
    rw [round1_eq (n := 0) (by norm_num) (by norm_num)]
    norm_num
  refine ⟨?_, ?_, ?_, rfl, ?_, ?_⟩
  · intro s hs hpos
    rw [hsel]
    exact g2 s hs hpos
  · intro hnone
    rcases g3 with heq | ⟨s, hs, hpos, heq, hlt⟩
    · have hsb : select_best (category_stats uqs) = (none, 0) := hsel.trans heq
      refine ⟨hsb, ?_⟩
      show ((select_best (category_stats uqs)).1,
        round1 (select_best (category_stats uqs)).2) = (none, 0)
      rw [hsb]
      simp [hr0]
    · rw [hsel, heq] at hnone
      cases hnone
  · intro c hc
    rcases g3 with heq | ⟨s, hs, hpos, heq, hlt⟩
    · rw [hsel, heq] at hc
      cases hc
    · refine ⟨s, hs, ?_, hpos, ?_, ?_⟩
      · rw [hsel, heq] at hc
        exact Option.some.inj hc
      · rw [hsel, heq]
      · rw [hsel]
        exact hlt
  · have hc : category_stats [qw_vowels, qw_consonants]
        = [("vowels", 10, 9), ("consonants", 5, 2)] := by decide
    have hs : select_best [("vowels", 10, 9), ("consonants", 5, 2)]
        = (some "vowels", 90) := by
      norm_num [select_best, select_step, List.foldl]
    have hr : round1 90 = 90 := by
      rw [round1_eq (n := 900) (by norm_num) (by norm_num)]
      norm_num
    simp [find_best_category, hc, hs, hr]
  · norm_num [select_best, select_step, List.foldl]

/-- C7 witness: in the vowels/consonants scenario the selected category is
an accumulated category with positive total achieving the maximal positive
ratio. -/
theorem C7_best_category_witness :
    ∃ s ∈ category_stats [qw_vowels, qw_consonants], s.1 = "vowels" ∧
      0 < s.2.1 ∧
      cat_ratio s = (select_best (category_stats [qw_vowels, qw_consonants])).2 ∧
      0 < (select_best (category_stats [qw_vowels, qw_consonants])).2 :=
  (C7_best_category [qw_vowels, qw_consonants]).2.2.1 "vowels" (by
    rw [show category_stats [qw_vowels, qw_consonants]
        = [("vowels", 10, 9), ("consonants", 5, 2)] from by decide]
    norm_num [select_best, select_step, List.foldl])

/-- C7 counterexample: a single category "x" with total 5 > 0 (and 0
correct) exists, yet `find_best_category` returns the no-category sentinel
`(None, 0)` instead of selecting the category with the highest ratio among
those with `total > 0`. -/
theorem C7_zero_ratio_counterexample :
    category_stats [qw_zero_ratio] = [("x", 5, 0)] ∧
    find_best_category [qw_zero_ratio] = (none, 0) := by
  refine ⟨by decide, ?_⟩
  have hc : category_stats [qw_zero_ratio] = [("x", 5, 0)] := by decide
  have hs : select_best [("x", 5, 0)] = (none, 0) := by
    norm_num [select_best, select_step, List.foldl]
  have hr : round1 0 = 0 := by
    rw [round1_eq (n := 0) (by norm_num) (by norm_num)]
    norm_num
  simp [find_best_category, hc, hs, hr]

/-! ### Line-scan lemmas for C8 -/

theorem scan_fold_title (ls : List String) :
    ∀ t m tg : String, (∀ l ∈ ls, matchesTitle l = false) →
      (ls.foldl scan_step (t, m, tg)).1 = t := by
  induction ls with
  | nil => intro t m tg _; rfl
  | cons hd tl ih =>
    intro t m tg h
    have hhd : matchesTitle hd = false := h hd (List.mem_cons_self hd tl)
    have htl : ∀ l ∈ tl, matchesTitle l = false :=
      fun l hl => h l (List.mem_cons_of_mem hd hl)
    have hfst : (scan_step (t, m, tg) hd).1 = t := by
      simp only [scan_step, hhd]
      split_ifs <;> first | rfl | contradiction
    show (tl.foldl scan_step (scan_step (t, m, tg) hd)).1 = t
    rcases hacc : scan_step (t, m, tg) hd with ⟨t1, m1, tg1⟩
    rw [hacc] at hfst
    rw [← hfst]
    exact ih t1 m1 tg1 htl

theorem scan_fold_message (ls : List String) :
    ∀ t m tg : String, (∀ l ∈ ls, matchesMessage l = false) →
      (ls.foldl scan_step (t, m, tg)).2.1 = m := by
  induction ls with
  | nil => intro t m tg _; rfl
  | cons hd tl ih =>
    intro t m tg h
    have hhd : matchesMessage hd = false := h hd (List.mem_cons_self hd tl)
    have htl : ∀ l ∈ tl, matchesMessage l = false :=
      fun l hl => h l (List.mem_cons_of_mem hd hl)
    have hsnd : (scan_step (t, m, tg) hd).2.1 = m := by
      simp only [scan_step, hhd]
      split_ifs <;> first | rfl | contradiction
    show (tl.foldl scan_step (scan_step (t, m, tg) hd)).2.1 = m
    rcases hacc : scan_step (t, m, tg) hd with ⟨t1, m1, tg1⟩
    rw [hacc] at hsnd
    rw [← hsnd]
    exact ih t1 m1 tg1 htl

theorem scan_fold_tags (ls : List String) :
    ∀ t m tg : String, (∀ l ∈ ls, matchesTags l = false) →
      (ls.foldl scan_step (t, m, tg)).2.2 = tg := by
  induction ls with
  | nil => intro t m tg _; rfl
  | cons hd tl ih =>
    intro t m tg h
    have hhd : matchesTags hd = false := h hd (List.mem_cons_self hd tl)
    have htl : ∀ l ∈ tl, matchesTags l = false :=
      fun l hl => h l (List.mem_cons_of_mem hd hl)
    have hthd : (scan_step (t, m, tg) hd).2.2 = tg := by
      simp only [scan_step, hhd]
      split_ifs <;> first | rfl | contradiction
    show (tl.foldl scan_step (scan_step (t, m, tg) hd)).2.2 = tg
    rcases hacc : scan_step (t, m, tg) hd with ⟨t1, m1, tg1⟩
    rw [hacc] at hthd
    rw [← hthd]
    exact ih t1 m1 tg1 htl

/-- C8 (amended): free-text parsing is total and never fails: every response
yields all three fields; a field whose label tokens (Korean or English)
match no line keeps its fixed default; but when several lines match the same
field, the field is taken from the LAST matching line, not the first (each
matching line reassigns it — see the counterexample). -/
theorem C8_parse_fields (r : String) (ls : List String) (line : String) :
    ((∀ l ∈ ls, matchesTitle l = false) →
      (scan_lines ls).1 = default_title) ∧
    ((∀ l ∈ ls, matchesMessage l = false) →
      (scan_lines ls).2.1 = default_message) ∧
    ((∀ l ∈ ls, matchesTags l = false) →
      (scan_lines ls).2.2 = default_tags) ∧
    (matchesTitle line = true →
      scan_lines (ls ++ [line])
        = (extractField line (scan_lines ls).1,
           (scan_lines ls).2.1, (scan_lines ls).2.2)) ∧
    parse_ai_response r
      = ⟨strTake (scan_lines (pySplit '\n' (pyStrip r))).1 100,
         strTake (scan_lines (pySplit '\n' (pyStrip r))).2.1 500,
         strTake (scan_lines (pySplit '\n' (pyStrip r))).2.2 500⟩ ∧
    parse_ai_response "" = ⟨default_title, default_message, default_tags⟩ := by
  refine ⟨scan_fold_title ls default_title default_message default_tags,
    scan_fold_message ls default_title default_message default_tags,
    scan_fold_tags ls default_title default_message default_tags,
    ?_, rfl, by decide⟩
  intro h
  unfold scan_lines
  rw [List.foldl_append]
  show scan_step (ls.foldl scan_step (default_title, default_message, default_tags)) line = _
  simp only [scan_step, h]
  rfl

/-- C8 witness: an unlabeled line leaves the title at its default, and
appending a second title line overrides the first. -/
theorem C8_parse_fields_witness :
    (scan_lines ["안녕하세요"]).1 = default_title ∧
    scan_lines (["제목: A"] ++ ["제목: B"])
      = (extractField "제목: B" (scan_lines ["제목: A"]).1,
         (scan_lines ["제목: A"]).2.1, (scan_lines ["제목: A"]).2.2) :=
  ⟨(C8_parse_fields "" ["안녕하세요"] "x").1 (by decide),
   (C8_parse_fields "" ["제목: A"] "제목: B").2.2.2.1 (by decide)⟩

/-- C8 counterexample: with two labeled title lines "제목: A" then "제목: B",
the parsed title is "B" (the last matching line), not "A" (the first) as the
claim states. -/
theorem C8_last_match_counterexample :
    (parse_ai_response "제목: A\n제목: B").title = "B" ∧
    ("B" : String) ≠ "A" := by
  decide

end Wowlingo
